import Mathlib

/-!
Shallow embedding of the library-management service's circulation workflow
and CRUD routes (FastAPI + SQLAlchemy, files under `src/app/`), together
with proofs of the specification's claims about them.

Modelling conventions:
* Database rows become Lean structures mirroring the SQLAlchemy models in
  `src/app/models/` (`Book`, `Reader`, `BorrowedBook`).  Python `int`
  columns become `Int`; nullable columns become `Option`; `DateTime`
  values become abstract `Nat` timestamps (their only role in the logic is
  "null vs non-null").
* The database session's visible state is a `Store`: the three tables as
  lists plus the primary-key counters (`SERIAL` columns).  An `INSERT`
  appends a row with the next id; a flushed attribute mutation becomes an
  `UPDATE ... WHERE id = :pk`, i.e. a map over the table replacing the
  row(s) with that primary key.
* SQLAlchemy's `Result.scalar_one_or_none` is `scalar_one_or_none` below:
  `none` for no row, `some` for exactly one, and the
  `MultipleResultsFound` exception for two or more rows.
* Route handlers become functions `Store → args → Except ApiError (Store × row)`;
  `raise HTTPException(status_code, detail)` becomes
  `.error (.http status detail)` with the detail strings of the source.
* Pydantic request validation (required fields, `ge=0` bounds, fields
  absent from a request body) happens before a handler runs; it is
  modelled by explicit parse functions from "raw" records with optional
  fields, returning error 422 as FastAPI does for invalid bodies.
-/

namespace Library

/-- Rows of the `books` table (`src/app/models/book.py`): `id` primary key,
`year`, `isbn`, `description` nullable, `copies` non-nullable. -/
structure Book where
  id : Int
  title : String
  author : String
  year : Option Int
  isbn : Option String
  copies : Int
  description : Option String
deriving DecidableEq

/-- Rows of the `readers` table (`src/app/models/reader.py`). -/
structure Reader where
  id : Int
  name : String
  email : String
deriving DecidableEq

/-- Rows of the `borrowed_books` table (`src/app/models/borrowed_book.py`):
`return_date` nullable, null meaning "currently borrowed". -/
structure BorrowedBook where
  id : Int
  book_id : Int
  reader_id : Int
  borrow_date : Nat
  return_date : Option Nat
deriving DecidableEq

/-- The visible state of the database: the three tables plus the
auto-increment counters for their primary keys. -/
structure Store where
  books : List Book
  readers : List Reader
  borrows : List BorrowedBook
  nextBookId : Int
  nextReaderId : Int
  nextBorrowId : Int
deriving DecidableEq

/-- Outcomes a handler can raise: `http status detail` for
`raise HTTPException(status_code=..., detail=...)` (and 422 for request
bodies rejected by pydantic validation), and `multipleResultsFound` for
SQLAlchemy's unhandled `MultipleResultsFound` exception from
`scalar_one_or_none` on a query returning two or more rows. -/
inductive ApiError where
  | http (statusCode : Nat) (detail : String)
  | multipleResultsFound
deriving DecidableEq

/-- SQLAlchemy `Result.scalar_one_or_none`: `none` when the query returned
no row, the row when it returned exactly one, and the
`MultipleResultsFound` exception otherwise. -/
def scalar_one_or_none {α : Type} (rows : List α) : Except ApiError (Option α) :=
  match rows with
  | [] => .ok none
  | [a] => .ok (some a)
  | _ => .error .multipleResultsFound

/-- `select(Book).where(Book.id == book_id)`. -/
def selectBookById (s : Store) (book_id : Int) : List Book :=
  s.books.filter (fun b => b.id == book_id)

/-- `select(Reader).where(Reader.id == reader_id)`. -/
def selectReaderById (s : Store) (reader_id : Int) : List Reader :=
  s.readers.filter (fun r => r.id == reader_id)

/-- `select(BorrowedBook).where(BorrowedBook.reader_id == reader_id,
BorrowedBook.return_date.is_(None))` over a table. -/
def activeByReader (rows : List BorrowedBook) (reader_id : Int) : List BorrowedBook :=
  rows.filter (fun b => b.reader_id == reader_id && b.return_date.isNone)

/-- The reader's active-loan query against the store. -/
def selectActiveByReader (s : Store) (reader_id : Int) : List BorrowedBook :=
  activeByReader s.borrows reader_id

/-- `select(BorrowedBook).where(BorrowedBook.book_id == book_id,
BorrowedBook.reader_id == reader_id, BorrowedBook.return_date.is_(None))`. -/
def selectActiveByPair (s : Store) (book_id reader_id : Int) : List BorrowedBook :=
  s.borrows.filter (fun b =>
    b.book_id == book_id && b.reader_id == reader_id && b.return_date.isNone)

/-- The `UPDATE books SET copies = :c WHERE id = :book_id` emitted when the
fetched `Book` object's `copies` attribute is reassigned and flushed. -/
def updCopies (book_id : Int) (c : Int) : Book → Book :=
  fun b => if b.id == book_id then { b with copies := c } else b

/-- The `UPDATE borrowed_books SET return_date = :t WHERE id = :pk` emitted
when the fetched `BorrowedBook` object's `return_date` is set and flushed. -/
def updReturnDate (pk : Int) (t : Nat) : BorrowedBook → BorrowedBook :=
  fun b => if b.id == pk then { b with return_date := some t } else b

/-- `borrow_book` (`src/app/routes/borrow.py`): look up book then reader
(404 each), check `book.copies < 1` (400), count the reader's active
borrows and check `active_borrows >= 3` (400); on success decrement the
book's copies and insert a new `BorrowedBook` with null `return_date`,
committing both together.  `now` is the `datetime.now()` timestamp. -/
def borrow_book (s : Store) (book_id reader_id : Int) (now : Nat) :
    Except ApiError (Store × BorrowedBook) :=
  match scalar_one_or_none (selectBookById s book_id) with
  | .error e => .error e
  | .ok none => .error (.http 404 "Книга не найдена")
  | .ok (some book) =>
    match scalar_one_or_none (selectReaderById s reader_id) with
    | .error e => .error e
    | .ok none => .error (.http 404 "Читатель не найден")
    | .ok (some _reader) =>
      if book.copies < 1 then
        .error (.http 400 "Нет доступных экземпляров книги")
      else if 3 ≤ (selectActiveByReader s reader_id).length then
        .error (.http 400 "Читатель не может взять более 3 книг одновременно")
      else
        let new_borrow : BorrowedBook :=
          { id := s.nextBorrowId, book_id := book_id, reader_id := reader_id,
            borrow_date := now, return_date := none }
        .ok ({ s with
                books := s.books.map (updCopies book_id (book.copies - 1)),
                borrows := s.borrows ++ [new_borrow],
                nextBorrowId := s.nextBorrowId + 1 },
             new_borrow)

/-- `return_book` (`src/app/routes/borrow.py`): look up book then reader
(404 each), fetch the single active `BorrowedBook` row for the pair with
`scalar_one_or_none` (404 when none; `MultipleResultsFound` escapes
unhandled when there are several); on success set its `return_date` and
increment the book's copies, committing both together. -/
def return_book (s : Store) (book_id reader_id : Int) (now : Nat) :
    Except ApiError (Store × BorrowedBook) :=
  match scalar_one_or_none (selectBookById s book_id) with
  | .error e => .error e
  | .ok none => .error (.http 404 "Книга не найдена")
  | .ok (some book) =>
    match scalar_one_or_none (selectReaderById s reader_id) with
    | .error e => .error e
    | .ok none => .error (.http 404 "Читатель не найден")
    | .ok (some _reader) =>
      match scalar_one_or_none (selectActiveByPair s book_id reader_id) with
      | .error e => .error e
      | .ok none => .error (.http 404 "Запись о выдаче не найдена или книга уже возвращена")
      | .ok (some borrow_record) =>
        let updated : BorrowedBook := { borrow_record with return_date := some now }
        .ok ({ s with
                books := s.books.map (updCopies book_id (book.copies + 1)),
                borrows := s.borrows.map (updReturnDate borrow_record.id now) },
             updated)

/-- `get_active_borrows` (`src/app/services/circulation.py`): return every
`BorrowedBook` row of the reader with null `return_date`.  The function
performs no reader-existence check, and no route in
`src/app/routes/routes.py` exposes it. -/
def get_active_borrows (s : Store) (reader_id : Int) : List BorrowedBook :=
  selectActiveByReader s reader_id

/-- A book-creation request body before pydantic validation: each field is
present or absent. -/
structure RawBookCreate where
  title : Option String
  author : Option String
  year : Option Int
  isbn : Option String
  copies : Option Int
  description : Option String
deriving DecidableEq

/-- The validated `BookCreate` schema (`src/app/schemas/book.py`):
`title`, `author` and `isbn` are required (`Field(...)`), `year` and
`description` optional, `copies` defaults to 1 with `ge=0`. -/
structure BookCreate where
  title : String
  author : String
  year : Option Int
  isbn : String
  copies : Int
  description : Option String
deriving DecidableEq

/-- Pydantic validation of a `BookCreate` body: missing `title`, `author`
or `isbn`, or a negative `copies`, is rejected with 422 before the route
handler runs. -/
def parseBookCreate (raw : RawBookCreate) : Except ApiError BookCreate :=
  match raw.title, raw.author, raw.isbn with
  | some title, some author, some isbn =>
    if raw.copies.getD 1 < 0 then .error (.http 422 "validation error")
    else .ok { title := title, author := author, year := raw.year,
               isbn := isbn, copies := raw.copies.getD 1,
               description := raw.description }
  | _, _, _ => .error (.http 422 "validation error")

/-- The `if book.isbn:` duplicate check of `create_book`
(`src/app/routes/books.py`): only when the submitted ISBN is truthy
(non-empty string), query for an existing book with that ISBN and fail
400 on a hit. -/
def isbnDupCheck (s : Store) (book : BookCreate) : Except ApiError Unit :=
  if book.isbn != "" then
    match scalar_one_or_none (s.books.filter (fun b => b.isbn == some book.isbn)) with
    | .error e => .error e
    | .ok (some _) => .error (.http 400 "ISBN уже существует")
    | .ok none => .ok ()
  else .ok ()

/-- `create_book` (`src/app/routes/books.py`): run the duplicate-ISBN
check, then insert the new row with the next book id. -/
def create_book (s : Store) (book : BookCreate) : Except ApiError (Store × Book) :=
  match isbnDupCheck s book with
  | .error e => .error e
  | .ok () =>
    let new_book : Book :=
      { id := s.nextBookId, title := book.title, author := book.author,
        year := book.year, isbn := some book.isbn, copies := book.copies,
        description := book.description }
    .ok ({ s with books := s.books ++ [new_book], nextBookId := s.nextBookId + 1 },
         new_book)

/-- The `BookUpdate` schema (`src/app/schemas/book.py`): every field
optional, `copies` constrained `ge=0`.  `none` models a field absent from
the request body (`model_dump(exclude_unset=True)` skips it). -/
structure BookUpdate where
  title : Option String
  author : Option String
  year : Option Int
  isbn : Option String
  copies : Option Int
  description : Option String
deriving DecidableEq

/-- Pydantic validation of a `BookUpdate` body: a present negative
`copies` is rejected with 422. -/
def parseBookUpdate (u : BookUpdate) : Except ApiError BookUpdate :=
  match u.copies with
  | some c => if c < 0 then .error (.http 422 "validation error") else .ok u
  | none => .ok u

/-- The `setattr` loop of `update_book` over
`book_data.model_dump(exclude_unset=True)`: each field present in the
request overwrites the row's field, absent fields are left as they are. -/
def applyBookUpdate (b : Book) (u : BookUpdate) : Book :=
  { b with
    title := u.title.getD b.title,
    author := u.author.getD b.author,
    year := match u.year with | some y => some y | none => b.year,
    isbn := match u.isbn with | some i => some i | none => b.isbn,
    copies := u.copies.getD b.copies,
    description := match u.description with | some d => some d | none => b.description }

/-- `update_book` (`src/app/routes/books.py`): look up the book (404),
apply the per-field update, flush the row. -/
def update_book (s : Store) (book_id : Int) (u : BookUpdate) :
    Except ApiError (Store × Book) :=
  match scalar_one_or_none (selectBookById s book_id) with
  | .error e => .error e
  | .ok none => .error (.http 404 "Книга не найдена")
  | .ok (some book) =>
    let book' := applyBookUpdate book u
    .ok ({ s with books := s.books.map (fun b => if b.id == book_id then book' else b) },
         book')

/-- `delete_book` (`src/app/routes/books.py`): look up the book (404) and
delete the row.  (The foreign-key behaviour of deleting a referenced book
is left to the database; the row removal itself is modelled.) -/
def delete_book (s : Store) (book_id : Int) : Except ApiError Store :=
  match scalar_one_or_none (selectBookById s book_id) with
  | .error e => .error e
  | .ok none => .error (.http 404 "Книга не найдена")
  | .ok (some _) => .ok { s with books := s.books.filter (fun b => b.id != book_id) }

/-- `create_reader` (`src/app/routes/readers.py`): fail 400 when a reader
with the same email exists, otherwise insert.  Both `ReaderCreate` fields
are required, so the validated body is just the two strings. -/
def create_reader (s : Store) (name email : String) : Except ApiError (Store × Reader) :=
  match scalar_one_or_none (s.readers.filter (fun r => r.email == email)) with
  | .error e => .error e
  | .ok (some _) => .error (.http 400 "Читатель с таким Email уже существует")
  | .ok none =>
    let new_reader : Reader := { id := s.nextReaderId, name := name, email := email }
    .ok ({ s with readers := s.readers ++ [new_reader],
                  nextReaderId := s.nextReaderId + 1 },
         new_reader)

/-- The `ReaderUpdate` schema (`src/app/schemas/reader.py`): both fields
optional; `none` models a field absent from the request body. -/
structure ReaderUpdate where
  name : Option String
  email : Option String
deriving DecidableEq

/-- The `setattr` loop of `update_reader` over
`reader_data.model_dump(exclude_unset=True)`. -/
def applyReaderUpdate (r : Reader) (u : ReaderUpdate) : Reader :=
  { r with name := u.name.getD r.name, email := u.email.getD r.email }

/-- The `if reader_data.email and reader_data.email != reader.email:`
uniqueness check of `update_reader`: only a truthy (non-empty) submitted
email differing from the current one is checked for duplicates. -/
def checkUpdatedEmail (s : Store) (reader : Reader) (u : ReaderUpdate) :
    Except ApiError Unit :=
  match u.email with
  | some e =>
    if e != "" && e != reader.email then
      match scalar_one_or_none (s.readers.filter (fun r => r.email == e)) with
      | .error err => .error err
      | .ok (some _) => .error (.http 400 "Читатель с таким email уже существует")
      | .ok none => .ok ()
    else .ok ()
  | none => .ok ()

/-- `update_reader` (`src/app/routes/readers.py`): look up the reader
(404), run the email-uniqueness check, apply the per-field update, flush
the row. -/
def update_reader (s : Store) (reader_id : Int) (u : ReaderUpdate) :
    Except ApiError (Store × Reader) :=
  match scalar_one_or_none (selectReaderById s reader_id) with
  | .error e => .error e
  | .ok none => .error (.http 404 "Читатель не найден")
  | .ok (some reader) =>
    match checkUpdatedEmail s reader u with
    | .error e => .error e
    | .ok () =>
      let reader' := applyReaderUpdate reader u
      .ok ({ s with readers := s.readers.map (fun r => if r.id == reader_id then reader' else r) },
           reader')

/-- `delete_reader` (`src/app/routes/readers.py`): look up the reader
(404) and delete the row. -/
def delete_reader (s : Store) (reader_id : Int) : Except ApiError Store :=
  match scalar_one_or_none (selectReaderById s reader_id) with
  | .error e => .error e
  | .ok none => .error (.http 404 "Читатель не найден")
  | .ok (some _) => .ok { s with readers := s.readers.filter (fun r => r.id != reader_id) }

/-- One API request against the store: the circulation operations and the
Book/Reader CRUD mutations. -/
inductive Op where
  | borrow (book_id reader_id : Int) (now : Nat)
  | ret (book_id reader_id : Int) (now : Nat)
  | createBook (raw : RawBookCreate)
  | updateBook (book_id : Int) (u : BookUpdate)
  | deleteBook (book_id : Int)
  | createReader (name email : String)
  | updateReader (reader_id : Int) (u : ReaderUpdate)
  | deleteReader (reader_id : Int)
deriving DecidableEq

/-- Apply one request: a failed request rolls back and leaves the store
unchanged (each failure is isolated to its request). -/
def applyOp (s : Store) : Op → Store
  | .borrow b r t =>
    match borrow_book s b r t with | .ok (s', _) => s' | .error _ => s
  | .ret b r t =>
    match return_book s b r t with | .ok (s', _) => s' | .error _ => s
  | .createBook raw =>
    match parseBookCreate raw with
    | .ok bc => match create_book s bc with | .ok (s', _) => s' | .error _ => s
    | .error _ => s
  | .updateBook bid u =>
    match parseBookUpdate u with
    | .ok u' => match update_book s bid u' with | .ok (s', _) => s' | .error _ => s
    | .error _ => s
  | .deleteBook bid =>
    match delete_book s bid with | .ok s' => s' | .error _ => s
  | .createReader n e =>
    match create_reader s n e with | .ok (s', _) => s' | .error _ => s
  | .updateReader rid u =>
    match update_reader s rid u with | .ok (s', _) => s' | .error _ => s
  | .deleteReader rid =>
    match delete_reader s rid with | .ok s' => s' | .error _ => s

/-- Run a sequence of requests. -/
def run (s : Store) : List Op → Store
  | [] => s
  | op :: ops => run (applyOp s op) ops

/-- The freshly created database: empty tables, counters at 1. -/
def initStore : Store :=
  { books := [], readers := [], borrows := [], nextBookId := 1,
    nextReaderId := 1, nextBorrowId := 1 }

/-! ### Invariants -/

/-- Every book row has a non-negative copy count. -/
def InvCopies (s : Store) : Prop := ∀ bk ∈ s.books, 0 ≤ bk.copies

/-- Every reader has at most 3 active (null-return) loans. -/
def InvLimit (s : Store) : Prop :=
  ∀ r : Int, (selectActiveByReader s r).length ≤ 3

/-! ### Concrete data for witnesses and counterexamples -/

/-- A two-copy book row as `create_book` inserts it first. -/
def demoBook : Book :=
  { id := 1, title := "Book 1", author := "Author", year := some 2020,
    isbn := some "111", copies := 2, description := none }

/-- A reader row as `create_reader` inserts it first. -/
def demoReader : Reader :=
  { id := 1, name := "Ivan", email := "ivan@example.com" }

/-- A store holding one two-copy book and one reader. -/
def demoStore : Store :=
  { books := [demoBook], readers := [demoReader], borrows := [],
    nextBookId := 2, nextReaderId := 2, nextBorrowId := 1 }

/-- The loan row created by borrowing `demoBook` in `demoStore` at time 5. -/
def demoRow : BorrowedBook :=
  { id := 1, book_id := 1, reader_id := 1, borrow_date := 5, return_date := none }

/-- `demoStore` after that borrow: one copy left, one active loan. -/
def demoAfterBorrow : Store :=
  { demoStore with books := [{ demoBook with copies := 1 }],
                   borrows := [demoRow], nextBorrowId := 2 }

/-- The loan row after returning it at time 7. -/
def demoReturnedRow : BorrowedBook := { demoRow with return_date := some 7 }

/-- `demoAfterBorrow` after the return: two copies again, loan closed. -/
def demoAfterReturn : Store :=
  { demoStore with books := [{ demoBook with copies := 2 }],
                   borrows := [demoReturnedRow], nextBorrowId := 2 }

/-- A creation request for a two-copy book, all required fields present. -/
def rawBook2 : RawBookCreate :=
  { title := some "Book 1", author := some "Author", year := some 2020,
    isbn := some "111", copies := some 2, description := none }

/-- Register one two-copy book and one reader, then lend the same book to
the same reader twice — `borrow_book` never checks for an existing active
loan of the pair, so both requests succeed. -/
def doubleBorrowOps : List Op :=
  [Op.createBook rawBook2, Op.createReader "Ivan" "ivan@example.com",
   Op.borrow 1 1 0, Op.borrow 1 1 1]

/-- The store those four requests produce: two active loans of book 1 by
reader 1. -/
def doubleBorrowStore : Store := run initStore doubleBorrowOps

/-- `demoBook` with both copies lent out. -/
def demoBook0 : Book := { demoBook with copies := 0 }

/-- A store with a loan row whose reader row is gone (reachable because
`delete_reader` does not guard against outstanding loans). -/
def orphanRow : BorrowedBook :=
  { id := 1, book_id := 1, reader_id := 1, borrow_date := 0, return_date := none }

/-- A store containing `orphanRow` and no readers at all. -/
def orphanStore : Store :=
  { books := [demoBook0], readers := [], borrows := [orphanRow],
    nextBookId := 2, nextReaderId := 2, nextBorrowId := 2 }

/-- A creation request omitting the ISBN. -/
def rawNoIsbn : RawBookCreate :=
  { title := some "1984", author := some "George Orwell", year := some 1949,
    isbn := none, copies := some 3, description := none }

/-- A validated creation body whose ISBN duplicates `demoBook`'s. -/
def bcDup : BookCreate :=
  { title := "Other", author := "Author", year := none, isbn := "111",
    copies := 1, description := none }

/-- A validated creation body with an empty-string ISBN (falsy in Python,
so `create_book` skips the duplicate check). -/
def bcEmpty : BookCreate :=
  { title := "Blank", author := "Author", year := none, isbn := "",
    copies := 1, description := none }

/-- A store with one book and no readers. -/
def bookOnlyStore : Store :=
  { books := [demoBook], readers := [], borrows := [],
    nextBookId := 2, nextReaderId := 1, nextBorrowId := 1 }

/-- A store whose only book has zero copies. -/
def zeroCopiesStore : Store :=
  { books := [demoBook0], readers := [demoReader], borrows := [],
    nextBookId := 2, nextReaderId := 2, nextBorrowId := 1 }

/-- Three active loans of reader 1 (books 2, 3, 4). -/
def threeLoans : List BorrowedBook :=
  [{ id := 1, book_id := 2, reader_id := 1, borrow_date := 0, return_date := none },
   { id := 2, book_id := 3, reader_id := 1, borrow_date := 1, return_date := none },
   { id := 3, book_id := 4, reader_id := 1, borrow_date := 2, return_date := none }]

/-- A store where reader 1 already holds three active loans and book 1 has
copies available. -/
def threeLoansStore : Store :=
  { books := [demoBook], readers := [demoReader], borrows := threeLoans,
    nextBookId := 2, nextReaderId := 2, nextBorrowId := 4 }

/-- A request updating only the title of a book. -/
def demoBookUpdate : BookUpdate :=
  { title := some "Updated", author := none, year := none, isbn := none,
    copies := none, description := none }

/-- `demoBook` after `demoBookUpdate`. -/
def demoUpdatedBook : Book := { demoBook with title := "Updated" }

/-- `demoStore` after updating book 1 with `demoBookUpdate`. -/
def demoStoreUpdated : Store := { demoStore with books := [demoUpdatedBook] }

/-- A request updating only the email of a reader. -/
def demoReaderUpdate : ReaderUpdate :=
  { name := none, email := some "new@example.com" }

/-- `demoReader` after `demoReaderUpdate`. -/
def demoUpdatedReader : Reader := { demoReader with email := "new@example.com" }

/-- `demoStore` after updating reader 1 with `demoReaderUpdate`. -/
def demoStoreReaderUpdated : Store := { demoStore with readers := [demoUpdatedReader] }

/-! ### Basic lemmas about the query primitives -/

theorem scalar_some_eq {α : Type} {l : List α} {a : α}
    (h : scalar_one_or_none l = .ok (some a)) : l = [a] := by
  rcases l with _ | ⟨b, _ | ⟨c, t⟩⟩
  · simp [scalar_one_or_none] at h
  · simp [scalar_one_or_none] at h
    simp [h]
  · simp [scalar_one_or_none] at h

theorem scalar_some_mem {α : Type} {l : List α} {a : α}
    (h : scalar_one_or_none l = .ok (some a)) : a ∈ l := by
  rw [scalar_some_eq h]
  exact List.mem_singleton_self a

theorem scalar_of_two_le {α : Type} {l : List α} (h : 2 ≤ l.length) :
    scalar_one_or_none l = .error .multipleResultsFound := by
  rcases l with _ | ⟨b, _ | ⟨c, t⟩⟩
  · simp at h
  · simp at h
  · rfl

theorem filter_map_updCopies (l : List Book) (bid c : Int) :
    (l.map (updCopies bid c)).filter (fun b => b.id == bid) =
      (l.filter (fun b => b.id == bid)).map (fun b => { b with copies := c }) := by
  induction l with
  | nil => rfl
  | cons x xs ih =>
    cases hx : (x.id == bid) with
    | true => simp [List.filter_cons, updCopies, hx, ih]
    | false => simp [List.filter_cons, updCopies, hx, ih]

theorem updReturnDate_of_isNone {pk : Int} {t : Nat} {x : BorrowedBook}
    (h : (updReturnDate pk t x).return_date.isNone = true) :
    updReturnDate pk t x = x := by
  unfold updReturnDate at h ⊢
  cases hx : (x.id == pk) with
  | true => simp [hx] at h
  | false => simp [hx]

theorem length_filter_map_le {α : Type} (f : α → α) (p : α → Bool)
    (hf : ∀ x, p (f x) = true → f x = x) (l : List α) :
    ((l.map f).filter p).length ≤ (l.filter p).length := by
  induction l with
  | nil => simp
  | cons x xs ih =>
    simp only [List.map_cons, List.filter_cons]
    cases hp : p (f x) with
    | true =>
      have hx : f x = x := hf x hp
      rw [hx] at hp ⊢
      simp only [hp, if_pos rfl, List.length_cons]
      exact Nat.succ_le_succ ih
    | false =>
      simp only [hp, Bool.false_eq_true, if_neg, ite_false]
      cases hq : p x with
      | true => simp only [List.length_cons]; exact Nat.le_succ_of_le ih
      | false => exact ih

/-! ### Inversion lemmas: what a successful route call did to the store -/

theorem borrow_book_ok {s : Store} {bid rid : Int} {t : Nat} {s' : Store}
    {row : BorrowedBook} (h : borrow_book s bid rid t = .ok (s', row)) :
    ∃ book reader,
      scalar_one_or_none (selectBookById s bid) = .ok (some book) ∧
      scalar_one_or_none (selectReaderById s rid) = .ok (some reader) ∧
      ¬ book.copies < 1 ∧
      (selectActiveByReader s rid).length < 3 ∧
      row = { id := s.nextBorrowId, book_id := bid, reader_id := rid,
              borrow_date := t, return_date := none } ∧
      s' = { s with books := s.books.map (updCopies bid (book.copies - 1)),
                    borrows := s.borrows ++ [row],
                    nextBorrowId := s.nextBorrowId + 1 } := by
  unfold borrow_book at h
  split at h
  · cases h
  · cases h
  · next book hbook =>
    split at h
    · cases h
    · cases h
    · next reader hreader =>
      split at h
      · cases h
      · split at h
        · cases h
        · next hcopies hlimit =>
          refine ⟨book, reader, hbook, hreader, hcopies, ?_, ?_⟩
          · exact Nat.lt_of_not_le hlimit
          · cases h
            exact ⟨rfl, rfl⟩

theorem return_book_ok {s : Store} {bid rid : Int} {t : Nat} {s' : Store}
    {row : BorrowedBook} (h : return_book s bid rid t = .ok (s', row)) :
    ∃ book reader rec0,
      scalar_one_or_none (selectBookById s bid) = .ok (some book) ∧
      scalar_one_or_none (selectReaderById s rid) = .ok (some reader) ∧
      scalar_one_or_none (selectActiveByPair s bid rid) = .ok (some rec0) ∧
      row = { rec0 with return_date := some t } ∧
      s' = { s with books := s.books.map (updCopies bid (book.copies + 1)),
                    borrows := s.borrows.map (updReturnDate rec0.id t) } := by
  unfold return_book at h
  split at h
  · cases h
  · cases h
  · next book hbook =>
    split at h
    · cases h
    · cases h
    · next reader hreader =>
      split at h
      · cases h
      · cases h
      · next rec0 hrec =>
        refine ⟨book, reader, rec0, hbook, hreader, hrec, ?_⟩
        cases h
        exact ⟨rfl, rfl⟩

theorem parseBookCreate_ok {raw : RawBookCreate} {bc : BookCreate}
    (h : parseBookCreate raw = .ok bc) :
    0 ≤ bc.copies ∧ raw.isbn = some bc.isbn := by
  rcases raw with ⟨t, a, y, i, c, d⟩
  rcases t with _ | t
  · simp [parseBookCreate] at h
  rcases a with _ | a
  · simp [parseBookCreate] at h
  rcases i with _ | i
  · simp [parseBookCreate] at h
  by_cases hneg : c.getD 1 < 0
  · simp [parseBookCreate, hneg] at h
  · simp only [parseBookCreate, if_neg hneg, Except.ok.injEq] at h
    subst h
    exact ⟨Int.not_lt.mp hneg, rfl⟩

theorem parseBookUpdate_ok {u u' : BookUpdate}
    (h : parseBookUpdate u = .ok u') :
    u' = u ∧ ∀ c, u.copies = some c → 0 ≤ c := by
  unfold parseBookUpdate at h
  split at h
  · next c hc =>
    split at h
    · cases h
    · next hneg =>
      cases h
      exact ⟨rfl, fun c' hc' => by rw [hc] at hc'; cases hc'; exact Int.not_lt.mp hneg⟩
  · next hc =>
    cases h
    exact ⟨rfl, fun c' hc' => by rw [hc] at hc'; cases hc'⟩

theorem create_book_ok {s : Store} {bc : BookCreate} {s' : Store} {nb : Book}
    (h : create_book s bc = .ok (s', nb)) :
    nb = { id := s.nextBookId, title := bc.title, author := bc.author,
           year := bc.year, isbn := some bc.isbn, copies := bc.copies,
           description := bc.description } ∧
    s' = { s with books := s.books ++ [nb], nextBookId := s.nextBookId + 1 } := by
  unfold create_book at h
  split at h
  · cases h
  · cases h
    exact ⟨rfl, rfl⟩

theorem update_book_ok {s : Store} {bid : Int} {u : BookUpdate} {s' : Store} {b' : Book}
    (h : update_book s bid u = .ok (s', b')) :
    ∃ book, scalar_one_or_none (selectBookById s bid) = .ok (some book) ∧
      b' = applyBookUpdate book u ∧
      s' = { s with books := s.books.map (fun b => if b.id == bid then b' else b) } := by
  unfold update_book at h
  split at h
  · cases h
  · cases h
  · next book hbook =>
    cases h
    exact ⟨book, hbook, rfl, rfl⟩

theorem delete_book_ok {s : Store} {bid : Int} {s' : Store}
    (h : delete_book s bid = .ok s') :
    s' = { s with books := s.books.filter (fun b => b.id != bid) } := by
  unfold delete_book at h
  split at h
  · cases h
  · cases h
  · cases h
    rfl

theorem create_reader_ok {s : Store} {n e : String} {s' : Store} {nr : Reader}
    (h : create_reader s n e = .ok (s', nr)) :
    nr = { id := s.nextReaderId, name := n, email := e } ∧
    s' = { s with readers := s.readers ++ [nr], nextReaderId := s.nextReaderId + 1 } := by
  unfold create_reader at h
  split at h
  · cases h
  · cases h
  · cases h
    exact ⟨rfl, rfl⟩

theorem update_reader_ok {s : Store} {rid : Int} {u : ReaderUpdate} {s' : Store}
    {r' : Reader} (h : update_reader s rid u = .ok (s', r')) :
    ∃ reader, scalar_one_or_none (selectReaderById s rid) = .ok (some reader) ∧
      r' = applyReaderUpdate reader u ∧
      s' = { s with readers := s.readers.map (fun r => if r.id == rid then r' else r) } := by
  unfold update_reader at h
  split at h
  · cases h
  · cases h
  · next reader hreader =>
    split at h
    · cases h
    · cases h
      exact ⟨reader, hreader, rfl, rfl⟩

theorem delete_reader_ok {s : Store} {rid : Int} {s' : Store}
    (h : delete_reader s rid = .ok s') :
    s' = { s with readers := s.readers.filter (fun r => r.id != rid) } := by
  unfold delete_reader at h
  split at h
  · cases h
  · cases h
  · cases h
    rfl

/-! ### The copy-count invariant -/

theorem invCopies_applyOp (s : Store) (op : Op) (h : InvCopies s) :
    InvCopies (applyOp s op) := by
  cases op with
  | borrow b r t =>
    cases hb : borrow_book s b r t with
    | error e => simpa [applyOp, hb] using h
    | ok p =>
      obtain ⟨s', row⟩ := p
      obtain ⟨book, reader, hbook, hreader, hcopies, hlimit, hrow, hs'⟩ :=
        borrow_book_ok hb
      simp only [applyOp, hb]
      subst hs'
      intro bk hbk
      obtain ⟨x, hx, hfx⟩ := List.mem_map.mp hbk
      unfold updCopies at hfx
      by_cases hid : (x.id == b) = true
      · rw [if_pos hid] at hfx
        subst hfx
        have h1 : 1 ≤ book.copies := Int.not_lt.mp hcopies
        show 0 ≤ book.copies - 1
        omega
      · rw [if_neg hid] at hfx
        subst hfx
        exact h x hx
  | ret b r t =>
    cases hb : return_book s b r t with
    | error e => simpa [applyOp, hb] using h
    | ok p =>
      obtain ⟨s', row⟩ := p
      obtain ⟨book, reader, rec0, hbook, hreader, hrec, hrow, hs'⟩ :=
        return_book_ok hb
      simp only [applyOp, hb]
      subst hs'
      intro bk hbk
      obtain ⟨x, hx, hfx⟩ := List.mem_map.mp hbk
      have hbookmem : book ∈ s.books :=
        (List.mem_filter.mp (scalar_some_mem hbook)).1
      have hbooknn : 0 ≤ book.copies := h book hbookmem
      unfold updCopies at hfx
      by_cases hid : (x.id == b) = true
      · rw [if_pos hid] at hfx
        subst hfx
        show 0 ≤ book.copies + 1
        omega
      · rw [if_neg hid] at hfx
        subst hfx
        exact h x hx
  | createBook raw =>
    cases hp : parseBookCreate raw with
    | error e => simpa [applyOp, hp] using h
    | ok bc =>
      cases hc : create_book s bc with
      | error e => simpa [applyOp, hp, hc] using h
      | ok p =>
        obtain ⟨s', nb⟩ := p
        obtain ⟨hnb, hs'⟩ := create_book_ok hc
        simp only [applyOp, hp, hc]
        subst hs'
        intro bk hbk
        rcases List.mem_append.mp hbk with hin | hin
        · exact h bk hin
        · have : bk = nb := List.mem_singleton.mp hin
          subst this
          rw [hnb]
          exact (parseBookCreate_ok hp).1
  | updateBook bid u =>
    cases hp : parseBookUpdate u with
    | error e => simpa [applyOp, hp] using h
    | ok u' =>
      cases hc : update_book s bid u' with
      | error e => simpa [applyOp, hp, hc] using h
      | ok p =>
        obtain ⟨s', b'⟩ := p
        obtain ⟨book, hbook, hb', hs'⟩ := update_book_ok hc
        obtain ⟨huu, hcop⟩ := parseBookUpdate_ok hp
        simp only [applyOp, hp, hc]
        subst hs'
        intro bk hbk
        obtain ⟨x, hx, hfx⟩ := List.mem_map.mp hbk
        have hbookmem : book ∈ s.books :=
          (List.mem_filter.mp (scalar_some_mem hbook)).1
        by_cases hid : (x.id == bid) = true
        · rw [if_pos hid] at hfx
          subst hfx
          rw [hb']
          unfold applyBookUpdate
          cases hcu : u'.copies with
          | none => simpa [hcu] using h book hbookmem
          | some c =>
            subst huu
            simpa [hcu] using hcop c hcu
        · rw [if_neg hid] at hfx
          subst hfx
          exact h x hx
  | deleteBook bid =>
    cases hc : delete_book s bid with
    | error e => simpa [applyOp, hc] using h
    | ok s' =>
      have hs' := delete_book_ok hc
      simp only [applyOp, hc]
      subst hs'
      intro bk hbk
      exact h bk (List.mem_filter.mp hbk).1
  | createReader n e =>
    cases hc : create_reader s n e with
    | error err => simpa [applyOp, hc] using h
    | ok p =>
      obtain ⟨s', nr⟩ := p
      obtain ⟨hnr, hs'⟩ := create_reader_ok hc
      simp only [applyOp, hc]
      subst hs'
      exact h
  | updateReader rid u =>
    cases hc : update_reader s rid u with
    | error err => simpa [applyOp, hc] using h
    | ok p =>
      obtain ⟨s', r'⟩ := p
      obtain ⟨reader, hreader, hr', hs'⟩ := update_reader_ok hc
      simp only [applyOp, hc]
      subst hs'
      exact h
  | deleteReader rid =>
    cases hc : delete_reader s rid with
    | error err => simpa [applyOp, hc] using h
    | ok s' =>
      have hs' := delete_reader_ok hc
      simp only [applyOp, hc]
      subst hs'
      exact h

theorem invCopies_run (s : Store) (ops : List Op) (h : InvCopies s) :
    InvCopies (run s ops) := by
  induction ops generalizing s with
  | nil => exact h
  | cons op ops ih => exact ih (applyOp s op) (invCopies_applyOp s op h)

theorem invCopies_init : InvCopies initStore := by
  intro bk hbk
  simp [initStore] at hbk

/-! ### The borrow-limit invariant -/

theorem activeByReader_append_single (l : List BorrowedBook) (row : BorrowedBook)
    (r : Int) :
    activeByReader (l ++ [row]) r =
      activeByReader l r ++
        (if row.reader_id == r && row.return_date.isNone then [row] else []) := by
  unfold activeByReader
  rw [List.filter_append]
  simp [List.filter_cons]

theorem invLimit_applyOp (s : Store) (op : Op) (h : InvLimit s) :
    InvLimit (applyOp s op) := by
  cases op with
  | borrow b r t =>
    cases hb : borrow_book s b r t with
    | error e => simpa [applyOp, hb] using h
    | ok p =>
      obtain ⟨s', row⟩ := p
      obtain ⟨book, reader, hbook, hreader, hcopies, hlimit, hrow, hs'⟩ :=
        borrow_book_ok hb
      simp only [applyOp, hb]
      subst hs'
      intro r'
      show (activeByReader (s.borrows ++ [row]) r').length ≤ 3
      rw [activeByReader_append_single, List.length_append]
      subst hrow
      by_cases hrr : (r == r') = true
      · obtain rfl := eq_of_beq hrr
        have h3 : (activeByReader s.borrows r).length < 3 := hlimit
        simp only [Option.isNone_none, Bool.and_true, beq_self_eq_true, ite_true,
          List.length_singleton]
        omega
      · have hff : (r == r') = false := by simpa using hrr
        have h4 : (activeByReader s.borrows r').length ≤ 3 := h r'
        simp only [hff, Option.isNone_none, Bool.and_true, Bool.false_eq_true,
          ite_false, List.length_nil]
        omega
  | ret b r t =>
    cases hb : return_book s b r t with
    | error e => simpa [applyOp, hb] using h
    | ok p =>
      obtain ⟨s', row⟩ := p
      obtain ⟨book, reader, rec0, hbook, hreader, hrec, hrow, hs'⟩ :=
        return_book_ok hb
      simp only [applyOp, hb]
      subst hs'
      intro r'
      show ((s.borrows.map (updReturnDate rec0.id t)).filter
        (fun b0 => b0.reader_id == r' && b0.return_date.isNone)).length ≤ 3
      refine le_trans (length_filter_map_le _ _ ?_ s.borrows) (h r')
      intro x hx
      simp only [Bool.and_eq_true] at hx
      exact updReturnDate_of_isNone hx.2
  | createBook raw =>
    cases hp : parseBookCreate raw with
    | error e => simpa [applyOp, hp] using h
    | ok bc =>
      cases hc : create_book s bc with
      | error e => simpa [applyOp, hp, hc] using h
      | ok p =>
        obtain ⟨s', nb⟩ := p
        obtain ⟨hnb, hs'⟩ := create_book_ok hc
        simp only [applyOp, hp, hc]
        subst hs'
        exact h
  | updateBook bid u =>
    cases hp : parseBookUpdate u with
    | error e => simpa [applyOp, hp] using h
    | ok u' =>
      cases hc : update_book s bid u' with
      | error e => simpa [applyOp, hp, hc] using h
      | ok p =>
        obtain ⟨s', b'⟩ := p
        obtain ⟨book, hbook, hb', hs'⟩ := update_book_ok hc
        simp only [applyOp, hp, hc]
        subst hs'
        exact h
  | deleteBook bid =>
    cases hc : delete_book s bid with
    | error e => simpa [applyOp, hc] using h
    | ok s' =>
      have hs' := delete_book_ok hc
      simp only [applyOp, hc]
      subst hs'
      exact h
  | createReader n e =>
    cases hc : create_reader s n e with
    | error err => simpa [applyOp, hc] using h
    | ok p =>
      obtain ⟨s', nr⟩ := p
      obtain ⟨hnr, hs'⟩ := create_reader_ok hc
      simp only [applyOp, hc]
      subst hs'
      exact h
  | updateReader rid u =>
    cases hc : update_reader s rid u with
    | error err => simpa [applyOp, hc] using h
    | ok p =>
      obtain ⟨s', r'⟩ := p
      obtain ⟨reader, hreader, hr', hs'⟩ := update_reader_ok hc
      simp only [applyOp, hc]
      subst hs'
      exact h
  | deleteReader rid =>
    cases hc : delete_reader s rid with
    | error err => simpa [applyOp, hc] using h
    | ok s' =>
      have hs' := delete_reader_ok hc
      simp only [applyOp, hc]
      subst hs'
      exact h

theorem invLimit_run (s : Store) (ops : List Op) (h : InvLimit s) :
    InvLimit (run s ops) := by
  induction ops generalizing s with
  | nil => exact h
  | cons op ops ih => exact ih (applyOp s op) (invLimit_applyOp s op h)

theorem invLimit_init : InvLimit initStore := by
  intro r
  simp [initStore, selectActiveByReader, activeByReader]

/-- The pair-active rows of a reader are among that reader's active rows. -/
theorem pair_length_le_reader (s : Store) (b r : Int) :
    (selectActiveByPair s b r).length ≤ (selectActiveByReader s r).length := by
  refine List.Sublist.length_le (List.monotone_filter_right s.borrows ?_)
  intro x hx
  simp only [Bool.and_eq_true] at hx ⊢
  exact ⟨hx.1.2, hx.2⟩

/-- After the single active row of a pair has its return date set, the
pair has no active rows left. -/
theorem pair_filter_map_nil {l : List BorrowedBook} {bid rid : Int}
    {rec0 : BorrowedBook} (t : Nat)
    (h : l.filter (fun b => b.book_id == bid && b.reader_id == rid &&
      b.return_date.isNone) = [rec0]) :
    (l.map (updReturnDate rec0.id t)).filter
      (fun b => b.book_id == bid && b.reader_id == rid && b.return_date.isNone)
      = [] := by
  rw [List.filter_eq_nil_iff]
  intro y hy
  obtain ⟨x, hx, rfl⟩ := List.mem_map.mp hy
  intro hpy
  simp only [Bool.and_eq_true] at hpy
  have hfx : updReturnDate rec0.id t x = x := updReturnDate_of_isNone hpy.2
  rw [hfx] at hpy
  have hxin : x ∈ l.filter (fun b => b.book_id == bid && b.reader_id == rid &&
      b.return_date.isNone) :=
    List.mem_filter.mpr ⟨hx, by simp only [Bool.and_eq_true]; exact hpy⟩
  rw [h] at hxin
  obtain rfl := List.mem_singleton.mp hxin
  have hx2 : ({ x with return_date := some t } : BorrowedBook) = x := by
    simpa [updReturnDate] using hfx
  have hret : x.return_date = some t := congrArg BorrowedBook.return_date hx2.symm
  rw [hret] at hpy
  simp at hpy

/-- A return against a pair with no active row fails with the 404 error. -/
theorem return_book_404 (s : Store) (bid rid : Int) (t2 : Nat)
    (book : Book) (reader : Reader)
    (hbook : scalar_one_or_none (selectBookById s bid) = .ok (some book))
    (hreader : scalar_one_or_none (selectReaderById s rid) = .ok (some reader))
    (hnil : selectActiveByPair s bid rid = []) :
    return_book s bid rid t2 =
      .error (.http 404 "Запись о выдаче не найдена или книга уже возвращена") := by
  unfold return_book
  rw [hbook, hreader, hnil]
  rfl

/-! ### The claims -/

/-- C1: a successful borrow decrements the book's copy count by exactly 1
and appends exactly one loan row with null return timestamp; a successful
return increments the copy count by exactly 1, yields the loan row with
its return timestamp set to the current time, and a second return attempt
for the same (book, reader) loan fails with the 404 "loan not found"
error. -/
theorem borrow_return_roundtrip_spec (s : Store) (bid rid : Int) (t : Nat) :
    (∀ s' row, borrow_book s bid rid t = .ok (s', row) →
      row.return_date = none ∧
      s'.borrows = s.borrows ++ [row] ∧
      ∃ book, scalar_one_or_none (selectBookById s bid) = .ok (some book) ∧
        scalar_one_or_none (selectBookById s' bid) =
          .ok (some { book with copies := book.copies - 1 })) ∧
    (∀ s' row, return_book s bid rid t = .ok (s', row) →
      row.return_date = some t ∧
      (∃ book, scalar_one_or_none (selectBookById s bid) = .ok (some book) ∧
        scalar_one_or_none (selectBookById s' bid) =
          .ok (some { book with copies := book.copies + 1 })) ∧
      ∀ t2, return_book s' bid rid t2 =
        .error (.http 404 "Запись о выдаче не найдена или книга уже возвращена")) := by
  constructor
  · intro s' row h
    obtain ⟨book, reader, hbook, hreader, hcopies, hlimit, hrow, hs'⟩ :=
      borrow_book_ok h
    subst hs'
    refine ⟨by rw [hrow], rfl, book, hbook, ?_⟩
    show scalar_one_or_none
      ((s.books.map (updCopies bid (book.copies - 1))).filter
        (fun b => b.id == bid)) = _
    rw [filter_map_updCopies]
    have hsel : s.books.filter (fun b => b.id == bid) = [book] :=
      scalar_some_eq hbook
    rw [hsel]
    rfl
  · intro s' row h
    obtain ⟨book, reader, rec0, hbook, hreader, hrec, hrow, hs'⟩ :=
      return_book_ok h
    subst hs'
    have hbooks' : scalar_one_or_none
        ((s.books.map (updCopies bid (book.copies + 1))).filter
          (fun b => b.id == bid)) =
        .ok (some { book with copies := book.copies + 1 }) := by
      rw [filter_map_updCopies]
      have hsel : s.books.filter (fun b => b.id == bid) = [book] :=
        scalar_some_eq hbook
      rw [hsel]
      rfl
    refine ⟨by rw [hrow], ⟨book, hbook, hbooks'⟩, ?_⟩
    intro t2
    have hpairsel : s.borrows.filter (fun b => b.book_id == bid &&
        b.reader_id == rid && b.return_date.isNone) = [rec0] :=
      scalar_some_eq hrec
    exact return_book_404 _ bid rid t2 _ reader hbooks' hreader
      (pair_filter_map_nil t hpairsel)

/-- C1 witness: in a store with one two-copy book and one reader,
borrowing at time 5 yields the expected loan row and store, returning at
time 7 closes the loan, and a second return fails with 404. -/
theorem borrow_return_roundtrip_witness :
    demoRow.return_date = none ∧
    demoAfterBorrow.borrows = demoStore.borrows ++ [demoRow] ∧
    demoReturnedRow.return_date = some 7 ∧
    return_book demoAfterReturn 1 1 9 =
      .error (.http 404 "Запись о выдаче не найдена или книга уже возвращена") := by
  have hA := (borrow_return_roundtrip_spec demoStore 1 1 5).1
    demoAfterBorrow demoRow rfl
  have hB := (borrow_return_roundtrip_spec demoAfterBorrow 1 1 7).2
    demoAfterReturn demoReturnedRow rfl
  exact ⟨hA.1, hA.2.1, hB.1, hB.2.2 9⟩

/-- C2: `borrow_book` checks its preconditions in order — book existence
(404), reader existence (404), copy availability (400), borrow limit
(400) — each failing with its own distinct error; in particular a book
with `copies < 1` fails with the "no copies" error with no hypothesis on
the reader's active-loan count. -/
theorem borrow_preconditions_spec (s : Store) (bid rid : Int) (t : Nat) :
    (scalar_one_or_none (selectBookById s bid) = .ok none →
      borrow_book s bid rid t = .error (.http 404 "Книга не найдена")) ∧
    (∀ book, scalar_one_or_none (selectBookById s bid) = .ok (some book) →
      scalar_one_or_none (selectReaderById s rid) = .ok none →
      borrow_book s bid rid t = .error (.http 404 "Читатель не найден")) ∧
    (∀ book reader,
      scalar_one_or_none (selectBookById s bid) = .ok (some book) →
      scalar_one_or_none (selectReaderById s rid) = .ok (some reader) →
      book.copies < 1 →
      borrow_book s bid rid t =
        .error (.http 400 "Нет доступных экземпляров книги")) ∧
    (∀ book reader,
      scalar_one_or_none (selectBookById s bid) = .ok (some book) →
      scalar_one_or_none (selectReaderById s rid) = .ok (some reader) →
      ¬ book.copies < 1 → 3 ≤ (selectActiveByReader s rid).length →
      borrow_book s bid rid t =
        .error (.http 400 "Читатель не может взять более 3 книг одновременно")) := by
  refine ⟨?_, ?_, ?_, ?_⟩
  · intro h1
    unfold borrow_book
    rw [h1]
  · intro book h1 h2
    unfold borrow_book
    rw [h1, h2]
  · intro book reader h1 h2 h3
    unfold borrow_book
    rw [h1, h2]
    simp only [h3, if_pos]
  · intro book reader h1 h2 h3 h4
    unfold borrow_book
    rw [h1, h2]
    simp only [h3, h4, if_pos, if_neg, ite_true, ite_false]

/-- C2 witness: the four failures at concrete stores — empty store (no
book), book without reader, zero-copy book, and a reader already holding
three active loans with an available fourth book. -/
theorem borrow_preconditions_witness :
    borrow_book initStore 1 1 0 = .error (.http 404 "Книга не найдена") ∧
    borrow_book bookOnlyStore 1 1 0 = .error (.http 404 "Читатель не найден") ∧
    borrow_book zeroCopiesStore 1 1 0 =
      .error (.http 400 "Нет доступных экземпляров книги") ∧
    borrow_book threeLoansStore 1 1 0 =
      .error (.http 400 "Читатель не может взять более 3 книг одновременно") :=
  ⟨(borrow_preconditions_spec initStore 1 1 0).1 rfl,
   (borrow_preconditions_spec bookOnlyStore 1 1 0).2.1 demoBook rfl rfl,
   (borrow_preconditions_spec zeroCopiesStore 1 1 0).2.2.1 demoBook0 demoReader
     rfl rfl (by decide),
   (borrow_preconditions_spec threeLoansStore 1 1 0).2.2.2 demoBook demoReader
     rfl rfl (by decide) (by decide)⟩

/-- C3: after any sequence of borrow/return/create/update (and delete)
requests starting from the empty store, every book's copy count is
non-negative. -/
theorem copies_nonneg_spec (ops : List Op) :
    ∀ bk ∈ (run initStore ops).books, 0 ≤ bk.copies :=
  invCopies_run initStore ops invCopies_init

/-- C3 witness: the book created by `rawBook2` has a non-negative copy
count. -/
theorem copies_nonneg_witness : 0 ≤ demoBook.copies :=
  copies_nonneg_spec [Op.createBook rawBook2] demoBook (by decide)

/-- C4: after any sequence of requests starting from the empty store, no
reader ever has more than 3 active (null-return) loans. -/
theorem borrow_limit_spec (ops : List Op) (r : Int) :
    (selectActiveByReader (run initStore ops) r).length ≤ 3 :=
  invLimit_run initStore ops invLimit_init r

/-- C5 counterexample: `borrow_book` never checks for an existing active
loan of the same (book, reader) pair, so after creating a two-copy book
and a reader and borrowing the same book twice for the same reader, the
pair holds two active rows — more than one. -/
theorem pair_active_not_unique_cex :
    ¬ (selectActiveByPair (run initStore doubleBorrowOps) 1 1).length ≤ 1 := by
  decide

/-- C5 amended: the only per-pair bound the code guarantees is the one
inherited from the per-reader limit: a (book, reader) pair never has more
than 3 active rows after any request sequence from the empty store. -/
theorem pair_active_le_three_spec (ops : List Op) (b r : Int) :
    (selectActiveByPair (run initStore ops) b r).length ≤ 3 :=
  le_trans (pair_length_le_reader (run initStore ops) b r)
    (invLimit_run initStore ops invLimit_init r)

/-- C7 counterexample: `get_active_borrows` performs no reader-existence
check — on a store with no readers at all it returns the reader's active
rows normally (here a non-empty list) instead of failing with
NotFound("reader"); its return type cannot even express a failure. -/
theorem get_active_borrows_no_check_cex :
    selectReaderById orphanStore 1 = [] ∧
    get_active_borrows orphanStore 1 = [orphanRow] :=
  ⟨rfl, rfl⟩

/-- C7 amended: `get_active_borrows` returns exactly the reader's
`BorrowedBook` rows with null return timestamp, with no reader-existence
check (and no route exposes it). -/
theorem get_active_borrows_exact_spec (s : Store) (rid : Int)
    (row : BorrowedBook) :
    row ∈ get_active_borrows s rid ↔
      row ∈ s.borrows ∧ row.reader_id = rid ∧ row.return_date = none := by
  unfold get_active_borrows selectActiveByReader activeByReader
  rw [List.mem_filter]
  constructor
  · rintro ⟨h1, h2⟩
    simp only [Bool.and_eq_true] at h2
    exact ⟨h1, eq_of_beq h2.1, Option.isNone_iff_eq_none.mp h2.2⟩
  · rintro ⟨h1, h2, h3⟩
    refine ⟨h1, ?_⟩
    simp [h2, h3]

/-- C8 counterexample: the `BookCreate` schema declares the ISBN as a
required field, so a creation request omitting it is rejected by
validation (422) rather than accepted. -/
theorem isbn_omitted_rejected_cex :
    parseBookCreate rawNoIsbn = .error (.http 422 "validation error") := rfl

/-- C8 amended: the ISBN is required at book creation — omitting it fails
validation — and the route-level duplicate check applies only when the
submitted ISBN is non-empty: a duplicate non-empty ISBN fails 400, while
an empty-string ISBN (falsy in Python) skips the check and the insert
succeeds. -/
theorem isbn_required_spec (raw : RawBookCreate) (s : Store) (bc : BookCreate) :
    (raw.isbn = none →
      parseBookCreate raw = .error (.http 422 "validation error")) ∧
    (bc.isbn ≠ "" → ∀ b0,
      scalar_one_or_none (s.books.filter (fun b => b.isbn == some bc.isbn)) =
        .ok (some b0) →
      create_book s bc = .error (.http 400 "ISBN уже существует")) ∧
    (bc.isbn = "" → ∃ s' nb, create_book s bc = .ok (s', nb)) := by
  refine ⟨?_, ?_, ?_⟩
  · intro hn
    rcases raw with ⟨rt, ra, ry, ri, rc, rd⟩
    have hn' : ri = none := hn
    subst hn'
    cases rt <;> cases ra <;> rfl
  · intro hne b0 hdup
    unfold create_book isbnDupCheck
    have hb : (bc.isbn != "") = true := bne_iff_ne.mpr hne
    rw [hb, hdup]
    rfl
  · intro he
    unfold create_book isbnDupCheck
    have hb : (bc.isbn != "") = false := by simp [he]
    rw [hb]
    exact ⟨_, _, rfl⟩

/-- C8 witness: the 422 on the concrete ISBN-less request, the 400 on a
duplicate "111" ISBN against `demoStore`, and the successful insert of an
empty-ISBN book into the same store. -/
theorem isbn_required_witness :
    parseBookCreate rawNoIsbn = .error (.http 422 "validation error") ∧
    create_book demoStore bcDup = .error (.http 400 "ISBN уже существует") ∧
    ∃ s' nb, create_book demoStore bcEmpty = .ok (s', nb) :=
  ⟨(isbn_required_spec rawNoIsbn demoStore bcDup).1 rfl,
   (isbn_required_spec rawNoIsbn demoStore bcDup).2.1 (by decide) demoBook rfl,
   (isbn_required_spec rawNoIsbn demoStore bcEmpty).2.2 rfl⟩

/-- C9: partial update changes only the fields present in the request:
for both books and readers, every field absent from the request keeps its
prior value in the updated row, and rows other than the addressed one are
untouched. -/
theorem partial_update_frame_spec (s : Store) (bid rid : Int)
    (bu : BookUpdate) (ru : ReaderUpdate) :
    (∀ s' b', update_book s bid bu = .ok (s', b') →
      ∃ book, scalar_one_or_none (selectBookById s bid) = .ok (some book) ∧
        (bu.title = none → b'.title = book.title) ∧
        (bu.author = none → b'.author = book.author) ∧
        (bu.year = none → b'.year = book.year) ∧
        (bu.isbn = none → b'.isbn = book.isbn) ∧
        (bu.copies = none → b'.copies = book.copies) ∧
        (bu.description = none → b'.description = book.description) ∧
        (∀ other ∈ s.books, (other.id == bid) = false → other ∈ s'.books)) ∧
    (∀ s' r', update_reader s rid ru = .ok (s', r') →
      ∃ reader, scalar_one_or_none (selectReaderById s rid) = .ok (some reader) ∧
        (ru.name = none → r'.name = reader.name) ∧
        (ru.email = none → r'.email = reader.email) ∧
        (∀ other ∈ s.readers, (other.id == rid) = false → other ∈ s'.readers)) := by
  constructor
  · intro s' b' h
    obtain ⟨book, hbook, hb', hs'⟩ := update_book_ok h
    subst hs'
    refine ⟨book, hbook, ?_, ?_, ?_, ?_, ?_, ?_, ?_⟩
    · intro hnone; rw [hb']; unfold applyBookUpdate; simp [hnone]
    · intro hnone; rw [hb']; unfold applyBookUpdate; simp [hnone]
    · intro hnone; rw [hb']; unfold applyBookUpdate; simp [hnone]
    · intro hnone; rw [hb']; unfold applyBookUpdate; simp [hnone]
    · intro hnone; rw [hb']; unfold applyBookUpdate; simp [hnone]
    · intro hnone; rw [hb']; unfold applyBookUpdate; simp [hnone]
    · intro other hmem hne
      refine List.mem_map.mpr ⟨other, hmem, ?_⟩
      simp [hne]
  · intro s' r' h
    obtain ⟨reader, hreader, hr', hs'⟩ := update_reader_ok h
    subst hs'
    refine ⟨reader, hreader, ?_, ?_, ?_⟩
    · intro hnone; rw [hr']; unfold applyReaderUpdate; simp [hnone]
    · intro hnone; rw [hr']; unfold applyReaderUpdate; simp [hnone]
    · intro other hmem hne
      refine List.mem_map.mpr ⟨other, hmem, ?_⟩
      simp [hne]

/-- C9 witness: updating only the title of `demoBook` keeps its author and
copy count; updating only the email of `demoReader` keeps its name. -/
theorem partial_update_frame_witness :
    demoUpdatedBook.author = demoBook.author ∧
    demoUpdatedBook.copies = demoBook.copies ∧
    demoUpdatedReader.name = demoReader.name := by
  obtain ⟨book, hsc, hT, hA, hY, hI, hC, hD, hF⟩ :=
    (partial_update_frame_spec demoStore 1 1 demoBookUpdate demoReaderUpdate).1
      demoStoreUpdated demoUpdatedBook rfl
  have h0 : scalar_one_or_none (selectBookById demoStore 1) =
      .ok (some demoBook) := rfl
  rw [h0] at hsc
  injection hsc with hsc1
  injection hsc1 with hsc2
  subst hsc2
  obtain ⟨reader, hsc', hN, hE, hF'⟩ :=
    (partial_update_frame_spec demoStore 1 1 demoBookUpdate demoReaderUpdate).2
      demoStoreReaderUpdated demoUpdatedReader rfl
  have h1 : scalar_one_or_none (selectReaderById demoStore 1) =
      .ok (some demoReader) := rfl
  rw [h1] at hsc'
  injection hsc' with hsc1'
  injection hsc1' with hsc2'
  subst hsc2'
  exact ⟨hA rfl, hC rfl, hN rfl⟩

/-- C10: when the store holds more than one active row for a (book,
reader) pair — a state reachable because `borrow_book` never checks for
an existing active loan of the pair — `return_book`'s single-row lookup
raises the unhandled MultipleResultsFound exception instead of any of the
specified NotFound/InvalidOperation failures or a successful return. -/
theorem return_multiple_active_spec (s : Store) (bid rid : Int) (t : Nat)
    (book : Book) (reader : Reader)
    (hbook : scalar_one_or_none (selectBookById s bid) = .ok (some book))
    (hreader : scalar_one_or_none (selectReaderById s rid) = .ok (some reader))
    (h2 : 2 ≤ (selectActiveByPair s bid rid).length) :
    return_book s bid rid t = .error .multipleResultsFound := by
  unfold return_book
  rw [hbook, hreader, scalar_of_two_le h2]

/-- C10 witness: after the reachable double-borrow sequence, the pair has
two active rows and the return request dies with MultipleResultsFound. -/
theorem return_multiple_active_witness :
    2 ≤ (selectActiveByPair doubleBorrowStore 1 1).length ∧
    return_book doubleBorrowStore 1 1 9 = .error .multipleResultsFound :=
  ⟨by decide,
   return_multiple_active_spec doubleBorrowStore 1 1 9 demoBook0 demoReader
     rfl rfl (by decide)⟩

end Library
